import Mathlib

/-!
Shallow embedding of the wincent Quick Access management library
(script strategy, on-disk script storage, script executor, cached
executor, manager), translated from the Rust sources under src/,
together with theorems checking the specification claims against it.

Modelling conventions:
- `SystemTime` is a natural number of seconds; `Duration` comparisons
  use truncated subtraction, mirroring `duration_since(..).unwrap_or(ZERO)`.
- External collaborators (the subprocess, the Windows APIs, path
  validation, the md5 crate) are oracles passed in as parameters.
- Literal braces inside PowerShell script text are written with the
  escapes \x7b and \x7d, and apostrophes with \x27.
-/

namespace Wincent

/-- PSScript operation kinds (src/script_strategy.rs). The constructor
`AddRecentFile` is referenced by manager.rs (a newer snapshot of the
crate) though absent from the strategy enum in script_strategy.rs; it
has no registered strategy, so the factory reports it as not found. -/
inductive PSScript where
  | RefreshExplorer
  | QueryQuickAccess
  | QueryRecentFile
  | QueryFrequentFolder
  | RemoveRecentFile
  | PinToFrequentFolder
  | UnpinFromFrequentFolder
  | EmptyPinnedFolders
  | CheckQueryFeasible
  | CheckPinUnpinFeasible
  | AddRecentFile
  deriving DecidableEq, Repr

/-- QuickAccess categories (src/lib.rs). -/
inductive QuickAccess where
  | FrequentFolders
  | RecentFiles
  | All
  deriving DecidableEq, Repr

/-- PathType used by path validation (referenced from src/manager.rs;
the validator itself is an excluded collaborator). -/
inductive PathType where
  | File
  | Directory
  deriving DecidableEq, Repr

/-- WincentError (src/error.rs), extended with `AlreadyExists` and
`NotInRecent` which manager.rs constructs (newer snapshot than
error.rs). Payload strings carry the formatted messages. -/
inductive WincentError where
  | Io (msg : String)
  | Utf8 (msg : String)
  | PowerShellExecution (msg : String)
  | InvalidPath (msg : String)
  | UnsupportedOperation (msg : String)
  | SystemError (msg : String)
  | ScriptFailed (msg : String)
  | MissingParemeter
  | WindowsApi (code : Int)
  | ScriptStrategyNotFound (msg : String)
  | AsyncExecution (msg : String)
  | Timeout (msg : String)
  | AlreadyExists (path : String)
  | NotInRecent (path : String)
  deriving DecidableEq, Repr

/-- Debug-format name of a PSScript constructor, as produced by the
derived Debug instance used in the Rust format strings. -/
def psScriptName : PSScript → String
  | .RefreshExplorer => ("RefreshExplorer")
  | .QueryQuickAccess => ("QueryQuickAccess")
  | .QueryRecentFile => ("QueryRecentFile")
  | .QueryFrequentFolder => ("QueryFrequentFolder")
  | .RemoveRecentFile => ("RemoveRecentFile")
  | .PinToFrequentFolder => ("PinToFrequentFolder")
  | .UnpinFromFrequentFolder => ("UnpinFromFrequentFolder")
  | .EmptyPinnedFolders => ("EmptyPinnedFolders")
  | .CheckQueryFeasible => ("CheckQueryFeasible")
  | .CheckPinUnpinFeasible => ("CheckPinUnpinFeasible")
  | .AddRecentFile => ("AddRecentFile")

/-- Debug-format name of a QuickAccess constructor. -/
def quickAccessName : QuickAccess → String
  | .FrequentFolders => ("FrequentFolders")
  | .RecentFiles => ("RecentFiles")
  | .All => ("All")

/-- Split a character list at every occurrence of the separator
character, keeping empty pieces, as Rust str::split over a char pattern
does (n separators give n+1 pieces). -/
def splitOnChar (c : Char) : List Char → List (List Char)
  | [] => [[]]
  | x :: xs =>
    match splitOnChar c xs with
    | [] => if x = c then [[], [x]] else [[x]]
    | y :: ys => if x = c then [] :: y :: ys else (x :: y) :: ys

/-- Rust str::split over a char pattern, on strings. -/
def strSplitChar (c : Char) (s : String) : List String :=
  (splitOnChar c s.data).map (fun l => ⟨l⟩)

/-- Rust str::ends_with. -/
def strEndsWith (s t : String) : Bool :=
  List.isSuffixOf t.data s.data

/-- Drop the last n characters of a string. -/
def strDropRight (s : String) (n : Nat) : String :=
  ⟨s.data.take (s.data.length - n)⟩

/-- Shell namespace constant QUICK_ACCESS (src/script_strategy.rs). -/
def ShellNamespaces.QUICK_ACCESS : String :=
  ("shell:::\x7b679f85cb-0220-4080-b29b-5540cc05aab6\x7d")

/-- Shell namespace constant FREQUENT_FOLDERS (src/script_strategy.rs). -/
def ShellNamespaces.FREQUENT_FOLDERS : String :=
  ("shell:::\x7b3936E9E4-D92C-4EEE-A85A-BC16D5EA0819\x7d")

/-- BaseScriptStrategy::utf8_header. -/
def utf8_header : String :=
  ("$OutputEncoding = [Console]::OutputEncoding = [System.Text.Encoding]::UTF8;")

/-- BaseScriptStrategy::shell_com_object. -/
def shell_com_object : String :=
  ("$shell = New-Object -ComObject Shell.Application;")

/-- RefreshExplorerStrategy::generate. -/
def refreshExplorerScript : String :=
  ("\n    ") ++ utf8_header ++
  ("\n    $shellApplication = New-Object -ComObject Shell.Application;\n    $windows = $shellApplication.Windows();\n    $windows | ForEach-Object \x7b $_.Refresh() \x7d\n")

/-- QueryRecentFileStrategy::generate. -/
def queryRecentFileScript : String :=
  ("\n    ") ++ utf8_header ++ ("\n    ") ++ shell_com_object ++
  ("\n    $shell.Namespace(\x27") ++ ShellNamespaces.QUICK_ACCESS ++
  ("\x27).Items() | where \x7b $_.IsFolder -eq $false \x7d | ForEach-Object \x7b $_.Path \x7d;\n")

/-- QueryFrequentFolderStrategy::generate. -/
def queryFrequentFolderScript : String :=
  ("\n    ") ++ utf8_header ++ ("\n    ") ++ shell_com_object ++
  ("\n    $shell.Namespace(\x27") ++ ShellNamespaces.FREQUENT_FOLDERS ++
  ("\x27).Items() | ForEach-Object \x7b $_.Path \x7d;\n")

/-- QueryQuickAccessStrategy::generate. -/
def queryQuickAccessScript : String :=
  ("\n    ") ++ utf8_header ++ ("\n    ") ++ shell_com_object ++
  ("\n    $shell.Namespace(\x27") ++ ShellNamespaces.QUICK_ACCESS ++
  ("\x27).Items() | ForEach-Object \x7b $_.Path \x7d;\n")

/-- RemoveRecentFileStrategy::generate applied to an already supplied path. -/
def removeRecentFileScript (path : String) : String :=
  ("\n    ") ++ utf8_header ++ ("\n    ") ++ shell_com_object ++
  ("\n    $files = $shell.Namespace(\"") ++ ShellNamespaces.QUICK_ACCESS ++
  ("\").Items() | where \x7b$_.IsFolder -eq $false\x7d;\n    $target = $files | where \x7b$_.Path -eq \"") ++
  path ++ ("\"\x7d;\n    $target.InvokeVerb(\"remove\");\n")

/-- PinToFrequentFolderStrategy::generate applied to an already supplied path. -/
def pinToFrequentFolderScript (path : String) : String :=
  ("\n    ") ++ utf8_header ++ ("\n    ") ++ shell_com_object ++
  ("\n    $shell.Namespace(\"") ++ path ++
  ("\").Self.InvokeVerb(\"pintohome\");\n")

/-- UnpinFromFrequentFolderStrategy::generate applied to an already supplied path. -/
def unpinFromFrequentFolderScript (path : String) : String :=
  ("\n    ") ++ utf8_header ++ ("\n    ") ++ shell_com_object ++
  ("\n    $folders = $shell.Namespace(\"") ++ ShellNamespaces.FREQUENT_FOLDERS ++
  ("\").Items();\n    $target = $folders | Where-Object \x7b$_.Path -eq \"") ++
  path ++ ("\"\x7d;\n    $target.InvokeVerb(\"unpinfromhome\");\n")

/-- EmptyPinnedFoldersStrategy::generate. -/
def emptyPinnedFoldersScript : String :=
  ("\n    ") ++ utf8_header ++ ("\n    ") ++ shell_com_object ++
  ("\n    $shell.Namespace(\x27") ++ ShellNamespaces.FREQUENT_FOLDERS ++
  ("\x27).Items() | ForEach-Object \x7b $_.InvokeVerb(\"unpinfromhome\") \x7d;\n")

/-- CheckQueryFeasibleStrategy::generate. -/
def checkQueryFeasibleScript : String :=
  ("\n    ") ++ utf8_header ++
  ("\n\n    $timeout = 5\n\n    $scriptBlock = \x7b\n        $shell = New-Object -ComObject Shell.Application\n        $shell.Namespace(\x27") ++
  ShellNamespaces.QUICK_ACCESS ++
  ("\x27).Items() | ForEach-Object \x7b $_.Path \x7d;\n    \x7d.ToString()\n\n    $arguments = \"-Command & \x7b$scriptBlock\x7d\"\n    $process = Start-Process powershell -ArgumentList $arguments -NoNewWindow -PassThru\n\n    if (-not $process.WaitForExit($timeout * 1000)) \x7b\n        try \x7b\n            $process.Kill()\n            Write-Error \"Process execution timed out ($\x7btimeout\x7ds), forcefully terminated\"\n            exit 1\n        \x7d\n        catch \x7b\n            Write-Error \"Error occurred while terminating process: $_\"\n            exit 1\n        \x7d\n    \x7d\n")

/-- CheckPinUnpinFeasibleStrategy::generate. -/
def checkPinUnpinFeasibleScript : String :=
  ("\n    ") ++ utf8_header ++
  ("\n\n    $currentPath = $PSScriptRoot\n\n    $scriptBlock = \x7b\n        param($scriptPath)\n        $shell = New-Object -ComObject Shell.Application\n        $shell.Namespace($scriptPath).Self.InvokeVerb(\x27pintohome\x27)\n\n        Start-Sleep -Seconds 3\n\n        $folders = $shell.Namespace(\x27") ++
  ShellNamespaces.FREQUENT_FOLDERS ++
  ("\x27).Items();\n        $target = $folders | Where-Object \x7b$_.Path -eq $scriptPath\x7d;\n        $target.InvokeVerb(\x27unpinfromhome\x27);\n    \x7d.ToString()\n\n    $arguments = \"-Command & \x7b$scriptBlock\x7d -scriptPath \x27$currentPath\x27\"\n    $process = Start-Process powershell -ArgumentList $arguments -NoNewWindow -PassThru\n\n    $timeout = 10\n    if (-not $process.WaitForExit($timeout * 1000)) \x7b\n        try \x7b\n            $process.Kill()\n            Write-Error \"Process execution timed out ($\x7btimeout\x7ds), forcefully terminated\"\n            exit 1\n        \x7d\n        catch \x7b\n            Write-Error \"Error occurred while terminating process: $_\"\n            exit 1\n        \x7d\n    \x7d\n")

/-- ScriptStrategyFactory::generate_script: dispatch to the per-kind
strategy `generate`; parameterized strategies fail with
`MissingParemeter` when no parameter is supplied, and `AddRecentFile`
has no registered strategy. -/
def generate_script (script_type : PSScript) (parameter : Option String) :
    Except WincentError String :=
  match script_type with
  | .RefreshExplorer => .ok refreshExplorerScript
  | .QueryQuickAccess => .ok queryQuickAccessScript
  | .QueryRecentFile => .ok queryRecentFileScript
  | .QueryFrequentFolder => .ok queryFrequentFolderScript
  | .RemoveRecentFile =>
    match parameter with
    | none => .error .MissingParemeter
    | some path => .ok (removeRecentFileScript path)
  | .PinToFrequentFolder =>
    match parameter with
    | none => .error .MissingParemeter
    | some path => .ok (pinToFrequentFolderScript path)
  | .UnpinFromFrequentFolder =>
    match parameter with
    | none => .error .MissingParemeter
    | some path => .ok (unpinFromFrequentFolderScript path)
  | .EmptyPinnedFolders => .ok emptyPinnedFoldersScript
  | .CheckQueryFeasible => .ok checkQueryFeasibleScript
  | .CheckPinUnpinFeasible => .ok checkPinUnpinFeasibleScript
  | .AddRecentFile => .error (.ScriptStrategyNotFound (psScriptName .AddRecentFile))

/-- Substring containment used for the verbatim-parameter property:
`p` occurs verbatim in `s`. -/
def containsVerbatim (s p : String) : Prop :=
  ∃ a b, s = a ++ p ++ b

/-!
ScriptStorage (src/script_storage.rs). A directory is a list of
(file name, metadata) pairs; metadata keeps the BOM flag, the script
text, the creation time and the modification time (seconds). I/O
failures of File::create / write are not modelled (the trace where the
disk writes succeed); the md5 parameter hash is an external crate,
passed in as a deterministic function parameter.
-/

/-- On-disk metadata of one stored script file. -/
structure FileMeta where
  bom : Bool
  content : String
  created : Nat
  mtime : Nat
  deriving DecidableEq, Repr

/-- A script directory: file names mapped to metadata. -/
abbrev Dir := List (String × FileMeta)

/-- First entry of the directory with the given file name. -/
def dirLookup (d : Dir) (name : String) : Option FileMeta :=
  (d.find? (fun e => e.1 == name)).map (fun e => e.2)

/-- Whether Path::extension() of the file name is "ps1": the name ends
in ".ps1" and has a non-empty stem (a bare ".ps1" has no extension). -/
def hasPs1Ext (name : String) : Bool :=
  strEndsWith name (".ps1") && name != (".ps1")

/-- ScriptStorage::parse_script_version: strip the ".ps1" suffix, split
the base name on underscores and return the second part when there are
at least two parts. -/
def parse_script_version (file_name : String) : Option String :=
  if strEndsWith file_name (".ps1") then
    match strSplitChar ('_') (strDropRight file_name 4) with
    | _ :: v :: _ => some v
    | _ => none
  else none

/-- Decision taken by the cleanup loop for one ".ps1" file: remove when
the file name encodes a version different from the running one, or,
failing that, when the age since the file creation time exceeds the
24-hour retention window. -/
def shouldRemoveScript (current_version : String) (now : Nat)
    (name : String) (meta : FileMeta) : Bool :=
  let byVersion :=
    match parse_script_version name with
    | some v => v != current_version
    | none => false
  if byVersion then true else decide (86400 < now - meta.created)

/-- ScriptStorage::cleanup_expired_scripts. `delOk name` tells whether
fs::remove_file succeeds on that file (failures are swallowed);
`readOk` tells whether fs::read_dir succeeds (its failure is also
swallowed, leaving the directory untouched). The function never
returns an error. -/
def cleanup_expired_scripts (current_version : String) (now : Nat)
    (delOk : String → Bool) (readOk : Bool) (dir : Dir) :
    Except WincentError Dir :=
  if readOk then
    .ok (dir.filter (fun e =>
      if hasPs1Ext e.1 && shouldRemoveScript current_version now e.1 e.2 then
        ! delOk e.1
      else true))
  else .ok dir

/-- ScriptStorage::get_dynamic_scripts_dir: ensure the directory exists
(creation is part of the no-failure disk trace) and sweep expired
scripts on every access. -/
def get_dynamic_scripts_dir (current_version : String) (now : Nat)
    (delOk : String → Bool) (readOk : Bool) (dynamic_dir : Dir) :
    Except WincentError Dir :=
  cleanup_expired_scripts current_version now delOk readOk dynamic_dir

/-- State of the two script directories maintained by ScriptStorage. -/
structure DiskState where
  statics : Dir
  dynamics : Dir
  deriving DecidableEq, Repr

/-- ScriptStorage::get_script_path (static, parameter-less scripts):
compute the versioned file name, reuse the file when present, else
generate the text and create the file (BOM-prefixed, flushed). The
returned path is the file name inside the fixed static directory. -/
def get_script_path (current_version : String) (now : Nat)
    (s : DiskState) (script_type : PSScript) :
    Except WincentError (String × DiskState) :=
  let script_name := psScriptName script_type ++ ("_") ++ current_version ++ (".ps1")
  match dirLookup s.statics script_name with
  | some _ => .ok (script_name, s)
  | none =>
    match generate_script script_type none with
    | .error e => .error e
    | .ok content =>
      .ok (script_name,
        { s with statics := (script_name, ⟨true, content, now, now⟩) :: s.statics })

/-- ScriptStorage::get_dynamic_script_path (parameterized scripts):
sweep the dynamic directory, compute the name from kind, version and
the 8-character parameter hash, reuse the file when present, else
generate and create it. -/
def get_dynamic_script_path (current_version : String) (now : Nat)
    (hash : String → String) (delOk : String → Bool) (readOk : Bool)
    (s : DiskState) (script_type : PSScript) (parameter : String) :
    Except WincentError (String × DiskState) :=
  match get_dynamic_scripts_dir current_version now delOk readOk s.dynamics with
  | .error e => .error e
  | .ok dyn =>
    let script_name := psScriptName script_type ++ ("_") ++ current_version ++
      ("_") ++ hash parameter ++ (".ps1")
    match dirLookup dyn script_name with
    | some _ => .ok (script_name, { s with dynamics := dyn })
    | none =>
      match generate_script script_type (some parameter) with
      | .error e => .error e
      | .ok content =>
        .ok (script_name,
          { s with dynamics := (script_name, ⟨true, content, now, now⟩) :: dyn })

/-!
ScriptExecutor and CachedScriptExecutor (src/script_executor.rs).
The subprocess, the script-path resolution on the real disk and the
tokio timeout race are oracles inside `ExecEnv`; stdout and stderr are
modelled after the from_utf8_lossy conversion, as strings.
-/

/-- Captured std::process::Output: exit-status success flag, stdout and
stderr after lossy UTF-8 conversion. -/
structure PSOutput where
  exitSuccess : Bool
  stdout : String
  stderr : String
  deriving DecidableEq, Repr

/-- Rust str::trim on a string: drop whitespace from both ends.
Char.isWhitespace approximates char::is_whitespace (they agree on the
ASCII whitespace a PowerShell line carries). -/
def rustTrim (s : String) : String :=
  ⟨((s.data.dropWhile Char.isWhitespace).reverse.dropWhile Char.isWhitespace).reverse⟩

/-- ScriptExecutor::parse_output_to_strings: a non-zero exit status is
an error carrying the captured stderr; on success, split stdout on
newlines, trim each line, drop the empty ones, keep the order.
(Rust lines() differs from splitOn only by the trailing empty segment
and the carriage returns, both erased by the trim and the filter.) -/
def parse_output_to_strings (output : PSOutput) :
    Except WincentError (List String) :=
  if !output.exitSuccess then
    .error (.PowerShellExecution output.stderr)
  else
    .ok (((strSplitChar ('\n') output.stdout).map rustTrim).filter (fun s => s != ("")))

/-- Observable state of the two Quick Access backing data files and the
clock (QuickAccessDataFiles). `newErr` is the failure, if any, of
get_windows_recent_folder inside QuickAccessDataFiles::new; a metadata
field of `Except String (Option Nat)` is either the fs::metadata error,
or the result of modified(), which itself may be unavailable. -/
structure FsState where
  newErr : Option WincentError
  recentPresent : Bool
  recentMeta : Except String (Option Nat)
  frequentPresent : Bool
  frequentMeta : Except String (Option Nat)
  now : Nat

/-- QuickAccessDataFiles::new. -/
def quick_access_data_files_new (fs : FsState) : Except WincentError Unit :=
  match fs.newErr with
  | some e => .error e
  | none => .ok ()

/-- QuickAccessDataFiles::get_recent_files_modified_time: modification
time of the recent-files jump-list file, the current time when the
metadata call gives no timestamp, or the current time when the file is
absent. -/
def get_recent_files_modified_time (fs : FsState) : Except WincentError Nat :=
  if fs.recentPresent then
    match fs.recentMeta with
    | .error e => .error (.Io e)
    | .ok m => .ok (m.getD fs.now)
  else .ok fs.now

/-- QuickAccessDataFiles::get_frequent_folders_modified_time. -/
def get_frequent_folders_modified_time (fs : FsState) : Except WincentError Nat :=
  if fs.frequentPresent then
    match fs.frequentMeta with
    | .error e => .error (.Io e)
    | .ok m => .ok (m.getD fs.now)
  else .ok fs.now

/-- QuickAccessDataFiles::get_quick_access_modified_time: the most
recent of the two timestamps. -/
def get_quick_access_modified_time (fs : FsState) : Except WincentError Nat :=
  match get_recent_files_modified_time fs with
  | .error e => .error e
  | .ok recent_time =>
    match get_frequent_folders_modified_time fs with
    | .error e => .error e
    | .ok frequent_time => .ok (max recent_time frequent_time)

/-- QuickAccessDataFiles::get_modified_time_for_script: the relevant
modification time per script kind; non-query kinds use the current
time. -/
def get_modified_time_for_script (fs : FsState) (script_type : PSScript) :
    Except WincentError Nat :=
  match script_type with
  | .QueryRecentFile => get_recent_files_modified_time fs
  | .QueryFrequentFolder => get_frequent_folders_modified_time fs
  | .QueryQuickAccess => get_quick_access_modified_time fs
  | _ => .ok fs.now

/-- CachedScriptExecutor cache key. -/
structure CacheKey where
  script_type : PSScript
  parameter : Option String
  deriving DecidableEq, Repr

/-- CachedScriptExecutor cache entry: cached lines and the freshness
timestamp (the backing-file modification time observed at insertion). -/
structure CacheEntry where
  result : List String
  timestamp : Nat
  deriving DecidableEq, Repr

/-- The result cache, with HashMap semantics: the first entry for a key
is its binding. -/
abbrev Cache := List (CacheKey × CacheEntry)

/-- HashMap::get. -/
def cacheFind (c : Cache) (k : CacheKey) : Option CacheEntry :=
  (c.find? (fun e => e.1 == k)).map (fun e => e.2)

/-- HashMap::insert (replaces any previous binding of the key). -/
def cacheInsert (c : Cache) (k : CacheKey) (v : CacheEntry) : Cache :=
  (k, v) :: c.filter (fun e => ! (e.1 == k))

/-- CachedScriptExecutor::clear_cache. -/
def clear_cache (_c : Cache) : Cache := []

/-- A subprocess invocation: script kind and optional parameter. -/
abbrev Spawn := PSScript × Option String

/-- Environment oracles for the execution layer and the manager:
`resolveErr` is the failure, if any, of the on-disk script resolution
(ScriptStorage, modelled in detail separately); `run` is the
subprocess, whose own failure is Command::output erroring; `timedOut`
tells whether the tokio timeout fires first for that invocation
(modelled as firing before any effect); `validate` is the excluded
path-validation collaborator; `addRecentApi`, `emptyRecentApi` and
`emptyFrequent` are the native Windows collaborators; and
`removeRecentData` is, modelled from the spec,
QuickAccessDataFiles::remove_recent_file (invoked by manager.rs but
absent from src/script_executor.rs): it force-invalidates the
recent-files backing file, as a fallible environment operation. -/
structure ExecEnv where
  resolveErr : PSScript → Option String → Option WincentError
  run : PSScript → Option String → Except String PSOutput
  timedOut : PSScript → Option String → Bool
  fs : FsState
  validate : String → PathType → Option WincentError
  addRecentApi : String → Option WincentError
  removeRecentData : Option WincentError
  emptyRecentApi : Option WincentError
  emptyFrequent : Bool → Option WincentError

/-- ScriptExecutor::execute_ps_script(_async): resolve the script on
disk, then spawn the interpreter on it; the spawn list records the
attempted subprocess invocations. A spawn-blocking join failure is
subsumed into the run oracle failing. -/
def execute_ps_script (env : ExecEnv) (script_type : PSScript)
    (parameter : Option String) :
    Except WincentError PSOutput × List Spawn :=
  match env.resolveErr script_type parameter with
  | some e => (.error e, [])
  | none =>
    match env.run script_type parameter with
    | .error msg => (.error (.PowerShellExecution msg), [(script_type, parameter)])
    | .ok out => (.ok out, [(script_type, parameter)])

/-- CachedScriptExecutor::should_cache: only the three query kinds. -/
def should_cache (script_type : PSScript) : Bool :=
  match script_type with
  | .QueryQuickAccess | .QueryRecentFile | .QueryFrequentFolder => true
  | _ => false

/-- Result of one cached-executor call: the parsed result, the cache
left behind, and the subprocess invocations made. -/
structure ExecOut where
  res : Except WincentError (List String)
  cache : Cache
  spawned : List Spawn

/-- Cache-miss path of CachedScriptExecutor::execute: run the script,
parse, and on success store (result, current_modified) under the key. -/
def cachedExecuteMiss (env : ExecEnv) (cache : Cache) (script_type : PSScript)
    (parameter : Option String) (key : CacheKey) (current_modified : Nat) :
    ExecOut :=
  match execute_ps_script env script_type parameter with
  | (.error e, sp) => ⟨.error e, cache, sp⟩
  | (.ok out, sp) =>
    match parse_output_to_strings out with
    | .error e => ⟨.error e, cache, sp⟩
    | .ok result => ⟨.ok result, cacheInsert cache key ⟨result, current_modified⟩, sp⟩

/-- CachedScriptExecutor::execute: non-query kinds bypass the cache and
run fresh; query kinds observe the backing-file modification time,
serve the cached entry when its freshness timestamp is at least that
time, and otherwise take the miss path. -/
def cachedExecute (env : ExecEnv) (cache : Cache) (script_type : PSScript)
    (parameter : Option String) : ExecOut :=
  if !should_cache script_type then
    match execute_ps_script env script_type parameter with
    | (.error e, sp) => ⟨.error e, cache, sp⟩
    | (.ok out, sp) => ⟨parse_output_to_strings out, cache, sp⟩
  else
    match quick_access_data_files_new env.fs with
    | .error e => ⟨.error e, cache, []⟩
    | .ok _ =>
      match get_modified_time_for_script env.fs script_type with
      | .error e => ⟨.error e, cache, []⟩
      | .ok current_modified =>
        let key : CacheKey := ⟨script_type, parameter⟩
        match cacheFind cache key with
        | some entry =>
          if current_modified ≤ entry.timestamp then
            ⟨.ok entry.result, cache, []⟩
          else cachedExecuteMiss env cache script_type parameter key current_modified
        | none => cachedExecuteMiss env cache script_type parameter key current_modified

/-- CachedScriptExecutor::execute_with_timeout: race the execution
against the timer; a timeout is a distinct error (the race is modelled
as the timeout firing before any effect). -/
def execute_with_timeout (env : ExecEnv) (cache : Cache)
    (script_type : PSScript) (parameter : Option String)
    (timeout_secs : Nat) : ExecOut :=
  if env.timedOut script_type parameter then
    ⟨.error (.Timeout (("Script execution timed out after ") ++ toString timeout_secs ++ (" seconds"))),
      cache, []⟩
  else cachedExecute env cache script_type parameter

/-!
QuickAccessManager (src/manager.rs). The manager state is the result
cache plus the memoized feasibility cell (tokio OnceCell). Each entry
point returns its result, the new manager state, and the subprocess
invocations attempted on its behalf.
-/

/-- Manager state: the executor result cache and the lazily computed
feasibility flags (query, handle). -/
structure ManagerState where
  cache : Cache
  feasibility : Option (Bool × Bool)

/-- FeasibilityStatus::check_feasibility: run the probe script under
the lock timeout; a timeout or an execution failure both report
infeasible. -/
def check_feasibility (env : ExecEnv) (cache : Cache) (script : PSScript) :
    Bool × Cache × List Spawn :=
  if env.timedOut script none then (false, cache, [])
  else
    let r := cachedExecute env cache script none
    (r.res.toBool, r.cache, r.spawned)

/-- FeasibilityStatus::check: probe query feasibility then pin/unpin
feasibility. -/
def feasibility_status_check (env : ExecEnv) (cache : Cache) :
    (Bool × Bool) × Cache × List Spawn :=
  let q := check_feasibility env cache .CheckQueryFeasible
  let h := check_feasibility env q.2.1 .CheckPinUnpinFeasible
  ((q.1, h.1), h.2.1, q.2.2 ++ h.2.2)

/-- QuickAccessManager::check_feasible: memoized in the OnceCell; the
probes run at most once per manager instance. -/
def check_feasible (env : ExecEnv) (st : ManagerState) :
    (Bool × Bool) × ManagerState × List Spawn :=
  match st.feasibility with
  | some flags => (flags, st, [])
  | none =>
    let r := feasibility_status_check env st.cache
    (r.1, ⟨r.2.1, some r.1⟩, r.2.2)

/-- QuickAccessManager::map_to_script_type (total on the three
categories, but kept fallible as in the source). -/
def map_to_script_type (qa_type : QuickAccess) : Except WincentError PSScript :=
  match qa_type with
  | .All => .ok .QueryQuickAccess
  | .RecentFiles => .ok .QueryRecentFile
  | .FrequentFolders => .ok .QueryFrequentFolder

/-- QuickAccessManager::get_items: map the category to its query kind
and execute through the cached executor with a 10-second timeout. -/
def get_items (env : ExecEnv) (st : ManagerState) (qa_type : QuickAccess) :
    Except WincentError (List String) × ManagerState × List Spawn :=
  match map_to_script_type qa_type with
  | .error e => (.error e, st, [])
  | .ok script_type =>
    let r := execute_with_timeout env st.cache script_type none 10
    (r.res, ⟨r.cache, st.feasibility⟩, r.spawned)

/-- QuickAccessManager::check_item: membership test over the lines
returned by get_items. -/
def check_item (env : ExecEnv) (st : ManagerState) (path : String)
    (qa_type : QuickAccess) :
    Except WincentError Bool × ManagerState × List Spawn :=
  match get_items env st qa_type with
  | (.error e, st1, sp) => (.error e, st1, sp)
  | (.ok items, st1, sp) => (.ok (items.any (fun item => item == path)), st1, sp)

/-- Manager-internal Operation tag. -/
inductive Operation where
  | Add (script : PSScript)
  | Remove (script : PSScript)

/-- Script carried by an Operation. -/
def Operation.script : Operation → PSScript
  | .Add s => s
  | .Remove s => s

/-- Whether the Operation is an Add. -/
def Operation.isAdd : Operation → Bool
  | .Add _ => true
  | .Remove _ => false

/-- Dispatch step of QuickAccessManager::handle_operation, computing
the Vec of output lines: adding a recent file goes through the native
API (plus, under force_update, the modelled backing-file invalidation)
and yields no lines; the other supported combinations run the
operation script with a 10-second timeout; any other category is
unsupported. -/
def handle_operation_dispatch (env : ExecEnv) (cache : Cache)
    (operation : Operation) (path : String) (qa_type : QuickAccess)
    (force_update : Bool) :
    Except WincentError (List String) × Cache × List Spawn :=
  match qa_type with
  | .RecentFiles =>
    if operation.isAdd then
      match env.addRecentApi path with
      | some e => (.error e, cache, [])
      | none =>
        if force_update then
          match quick_access_data_files_new env.fs with
          | .error e => (.error e, cache, [])
          | .ok _ =>
            match env.removeRecentData with
            | some e => (.error e, cache, [])
            | none => (.ok [], cache, [])
        else (.ok [], cache, [])
    else
      let r := execute_with_timeout env cache operation.script (some path) 10
      (r.res, r.cache, r.spawned)
  | .FrequentFolders =>
    let r := execute_with_timeout env cache operation.script (some path) 10
    (r.res, r.cache, r.spawned)
  | .All =>
    (.error (.UnsupportedOperation (("Unsupported operation for ") ++ quickAccessName qa_type)),
      cache, [])

/-- QuickAccessManager::handle_operation: validate the path, dispatch,
treat any non-empty script output as failure, and clear the whole
cache only after full success. -/
def handle_operation (env : ExecEnv) (cache : Cache) (operation : Operation)
    (path : String) (qa_type : QuickAccess) (path_type : PathType)
    (force_update : Bool) :
    Except WincentError Unit × Cache × List Spawn :=
  match env.validate path path_type with
  | some e => (.error e, cache, [])
  | none =>
    match handle_operation_dispatch env cache operation path qa_type force_update with
    | (.error e, cache1, sp) => (.error e, cache1, sp)
    | (.ok result, cache1, sp) =>
      if result != [] then
        (.error (.ScriptFailed (("Operation failed for path: ") ++ path)), cache1, sp)
      else (.ok (), clear_cache cache1, sp)

/-- QuickAccessManager::add_item: reject with AlreadyExists when the
membership query already reports the path, reject All as unsupported,
else dispatch the add through handle_operation. -/
def add_item (env : ExecEnv) (st : ManagerState) (path : String)
    (qa_type : QuickAccess) (force_update : Bool) :
    Except WincentError Unit × ManagerState × List Spawn :=
  match check_item env st path qa_type with
  | (.error e, st1, sp) => (.error e, st1, sp)
  | (.ok true, st1, sp) => (.error (.AlreadyExists path), st1, sp)
  | (.ok false, st1, sp) =>
    match qa_type with
    | .All =>
      (.error (.UnsupportedOperation (("Unsupported add operation for ") ++ quickAccessName qa_type)),
        st1, sp)
    | .RecentFiles =>
      let r := handle_operation env st1.cache (.Add .AddRecentFile) path qa_type .File force_update
      (r.1, ⟨r.2.1, st1.feasibility⟩, sp ++ r.2.2)
    | .FrequentFolders =>
      let r := handle_operation env st1.cache (.Add .PinToFrequentFolder) path qa_type .Directory force_update
      (r.1, ⟨r.2.1, st1.feasibility⟩, sp ++ r.2.2)

/-- QuickAccessManager::remove_item: reject with NotInRecent when the
membership query does not report the path, reject All as unsupported,
else dispatch the removal script through handle_operation. -/
def remove_item (env : ExecEnv) (st : ManagerState) (path : String)
    (qa_type : QuickAccess) :
    Except WincentError Unit × ManagerState × List Spawn :=
  match check_item env st path qa_type with
  | (.error e, st1, sp) => (.error e, st1, sp)
  | (.ok false, st1, sp) => (.error (.NotInRecent path), st1, sp)
  | (.ok true, st1, sp) =>
    match qa_type with
    | .All =>
      (.error (.UnsupportedOperation (("Unsupported remove operation for ") ++ quickAccessName qa_type)),
        st1, sp)
    | .RecentFiles =>
      let r := handle_operation env st1.cache (.Remove .RemoveRecentFile) path qa_type .File false
      (r.1, ⟨r.2.1, st1.feasibility⟩, sp ++ r.2.2)
    | .FrequentFolders =>
      let r := handle_operation env st1.cache (.Remove .UnpinFromFrequentFolder) path qa_type .Directory false
      (r.1, ⟨r.2.1, st1.feasibility⟩, sp ++ r.2.2)

/-- Phase of QuickAccessManager::empty_items for RecentFiles: the
native Shell API call. -/
def empty_recent_phase (env : ExecEnv) (cache : Cache) :
    Except WincentError Unit × Cache × List Spawn :=
  match env.emptyRecentApi with
  | some e => (.error e, cache, [])
  | none => (.ok (), cache, [])

/-- Phase of QuickAccessManager::empty_items for FrequentFolders: the
native jump-list removal, then the EmptyPinnedFolders script. -/
def empty_frequent_phase (env : ExecEnv) (cache : Cache)
    (also_system_default : Bool) :
    Except WincentError Unit × Cache × List Spawn :=
  match env.emptyFrequent also_system_default with
  | some e => (.error e, cache, [])
  | none =>
    let r := execute_with_timeout env cache .EmptyPinnedFolders none 10
    match r.res with
    | .error e => (.error e, r.cache, r.spawned)
    | .ok _ => (.ok (), r.cache, r.spawned)

/-- Tail of QuickAccessManager::empty_items: clear the whole cache,
then, when force_refresh is set, run the RefreshExplorer script (whose
failure propagates after the clear). -/
def empty_items_tail (env : ExecEnv) (cache : Cache) (force_refresh : Bool) :
    Except WincentError Unit × Cache × List Spawn :=
  let cleared := clear_cache cache
  if force_refresh then
    let r := cachedExecute env cleared .RefreshExplorer none
    match r.res with
    | .error e => (.error e, r.cache, r.spawned)
    | .ok _ => (.ok (), r.cache, r.spawned)
  else (.ok (), cleared, [])

/-- One single-category call of QuickAccessManager::empty_items
(RecentFiles or FrequentFolders): the category phase, then the clearing
and optional refresh tail. -/
def empty_items_single (env : ExecEnv) (cache : Cache) (recent : Bool)
    (force_refresh : Bool) (also_system_default : Bool) :
    Except WincentError Unit × Cache × List Spawn :=
  let phase :=
    if recent then empty_recent_phase env cache
    else empty_frequent_phase env cache also_system_default
  match phase with
  | (.error e, cache1, sp) => (.error e, cache1, sp)
  | (.ok _, cache1, sp) =>
    let t := empty_items_tail env cache1 force_refresh
    (t.1, t.2.1, sp ++ t.2.2)

/-- QuickAccessManager::empty_items: All decomposes into the two
single-category calls (each with its own clear-and-refresh tail),
followed by this level's own tail. -/
def empty_items (env : ExecEnv) (st : ManagerState) (qa_type : QuickAccess)
    (force_refresh : Bool) (also_system_default : Bool) :
    Except WincentError Unit × ManagerState × List Spawn :=
  match qa_type with
  | .RecentFiles =>
    let r := empty_items_single env st.cache true force_refresh also_system_default
    (r.1, ⟨r.2.1, st.feasibility⟩, r.2.2)
  | .FrequentFolders =>
    let r := empty_items_single env st.cache false force_refresh also_system_default
    (r.1, ⟨r.2.1, st.feasibility⟩, r.2.2)
  | .All =>
    match empty_items_single env st.cache true force_refresh also_system_default with
    | (.error e, cache1, sp) => (.error e, ⟨cache1, st.feasibility⟩, sp)
    | (.ok _, cache1, sp1) =>
      match empty_items_single env cache1 false force_refresh also_system_default with
      | (.error e, cache2, sp2) => (.error e, ⟨cache2, st.feasibility⟩, sp1 ++ sp2)
      | (.ok _, cache2, sp2) =>
        let t := empty_items_tail env cache2 force_refresh
        (t.1, ⟨t.2.1, st.feasibility⟩, sp1 ++ sp2 ++ t.2.2)

/-!
Concrete fixtures used by counterexamples and witnesses: a file-system
state with both backing files present, and an environment whose
feasibility probes fail, whose Explorer refresh fails, and whose
queries report one recent file.
-/

/-- Concrete backing-file state: both data files present, modified at
times 5 and 7, clock at 10. -/
def demoFs : FsState :=
  { newErr := none
    recentPresent := true
    recentMeta := Except.ok (some 5)
    frequentPresent := true
    frequentMeta := Except.ok (some 7)
    now := 10 }

/-- Concrete environment: resolution and validation succeed, nothing
times out, the feasibility probes exit non-zero, the Explorer refresh
exits non-zero with stderr "boom", every query prints one line, and
every mutation script exits cleanly with empty output. -/
def demoEnv : ExecEnv :=
  { resolveErr := fun _ _ => none
    run := fun k _ =>
      match k with
      | .CheckQueryFeasible => Except.ok ⟨false, (""), ("denied")⟩
      | .CheckPinUnpinFeasible => Except.ok ⟨false, (""), ("denied")⟩
      | .RefreshExplorer => Except.ok ⟨false, (""), ("boom")⟩
      | .QueryQuickAccess => Except.ok ⟨true, ("C:\\A.txt"), ("")⟩
      | .QueryRecentFile => Except.ok ⟨true, ("C:\\A.txt"), ("")⟩
      | .QueryFrequentFolder => Except.ok ⟨true, ("C:\\A.txt"), ("")⟩
      | _ => Except.ok ⟨true, (""), ("")⟩
    timedOut := fun _ _ => false
    fs := demoFs
    validate := fun _ _ => none
    addRecentApi := fun _ => none
    removeRecentData := none
    emptyRecentApi := none
    emptyFrequent := fun _ => none }

/-- Concrete non-empty cache holding one query entry. -/
def demoCache : Cache :=
  [(⟨.QueryRecentFile, none⟩, ⟨[("C:\\old.txt")], 99⟩)]

/-- Disk state after resolving RefreshExplorer once at time 0 with
version 0.5.2. -/
def demoStaticDisk : DiskState :=
  { statics := [(("RefreshExplorer_0.5.2.ps1"), ⟨true, refreshExplorerScript, 0, 0⟩)]
    dynamics := [] }

/-- Dynamic-script file metadata fixture. -/
def demoMeta : FileMeta := ⟨true, (""), 99999, 99999⟩

/-- Dynamic directory fixture: one file of an old version and one of
the current version, both freshly created. -/
def demoDynDir : Dir :=
  [(("Test_0.4.0.ps1"), demoMeta), (("Test_0.5.2.ps1"), demoMeta)]

/-- Disk state after resolving the pin script for C:\T once at time 0
with version 0.5.2 and parameter hash abcd1234. -/
def demoDynDisk1 : DiskState :=
  { statics := []
    dynamics := [(("PinToFrequentFolder_0.5.2_abcd1234.ps1"),
      ⟨true, pinToFrequentFolderScript ("C:\\T"), 0, 0⟩)] }

/-!
Helper lemmas shared by the claim theorems.
-/

/-- The spawn list of one raw script execution holds only that
invocation. -/
theorem execute_ps_script_spawned (env : ExecEnv) (k : PSScript) (p : Option String) :
    ∀ s ∈ (execute_ps_script env k p).2, s = (k, p) := by
  intro s hs
  unfold execute_ps_script at hs
  cases hR : env.resolveErr k p with
  | some e => rw [hR] at hs; simp at hs
  | none =>
    rw [hR] at hs
    cases hRun : env.run k p with
    | error m => rw [hRun] at hs; simpa using hs
    | ok out => rw [hRun] at hs; simpa using hs

/-- The miss path spawns only the requested invocation. -/
theorem cachedExecuteMiss_spawned (env : ExecEnv) (c : Cache) (k : PSScript)
    (p : Option String) (key : CacheKey) (cur : Nat) :
    ∀ s ∈ (cachedExecuteMiss env c k p key cur).spawned, s = (k, p) := by
  intro s hs
  unfold cachedExecuteMiss at hs
  rcases hE : execute_ps_script env k p with ⟨r, sp⟩
  rw [hE] at hs
  have hsp : ∀ x ∈ sp, x = (k, p) := by
    have h := execute_ps_script_spawned env k p
    rw [hE] at h
    simpa using h
  cases r with
  | error e => exact hsp s (by simpa using hs)
  | ok out =>
    simp only [] at hs
    cases hP : parse_output_to_strings out with
    | error e => rw [hP] at hs; exact hsp s (by simpa using hs)
    | ok res => rw [hP] at hs; exact hsp s (by simpa using hs)

/-- A non-query kind bypasses the cache: the call reduces to a fresh
execution against the unchanged cache. -/
theorem cachedExecute_bypass (env : ExecEnv) (c : Cache) (k : PSScript)
    (p : Option String) (h : should_cache k = false) :
    cachedExecute env c k p =
      (match execute_ps_script env k p with
       | (.error e, sp) => ⟨.error e, c, sp⟩
       | (.ok out, sp) => ⟨parse_output_to_strings out, c, sp⟩) := by
  simp [cachedExecute, h]

/-- A non-query kind leaves the cache untouched. -/
theorem cachedExecute_bypass_cache (env : ExecEnv) (c : Cache) (k : PSScript)
    (p : Option String) (h : should_cache k = false) :
    (cachedExecute env c k p).cache = c := by
  rw [cachedExecute_bypass env c k p h]
  rcases hE : execute_ps_script env k p with ⟨r, sp⟩
  cases r <;> rfl

/-- A timeout-guarded non-query call leaves the cache untouched. -/
theorem execute_with_timeout_bypass_cache (env : ExecEnv) (c : Cache)
    (k : PSScript) (p : Option String) (t : Nat) (h : should_cache k = false) :
    (execute_with_timeout env c k p t).cache = c := by
  unfold execute_with_timeout
  cases ht : env.timedOut k p
  · simpa using cachedExecute_bypass_cache env c k p h
  · rfl

/-- The result of a bypassed call does not depend on the cache. -/
theorem cachedExecute_bypass_res (env : ExecEnv) (c : Cache) (k : PSScript)
    (p : Option String) (h : should_cache k = false) :
    (cachedExecute env c k p).res = (cachedExecute env [] k p).res := by
  rw [cachedExecute_bypass env c k p h, cachedExecute_bypass env [] k p h]
  rcases hE : execute_ps_script env k p with ⟨r, sp⟩
  cases r <;> rfl

/-- A bypassed call with successful resolution spawns exactly once. -/
theorem cachedExecute_bypass_spawn (env : ExecEnv) (c : Cache) (k : PSScript)
    (p : Option String) (h : should_cache k = false)
    (hr : env.resolveErr k p = none) :
    (cachedExecute env c k p).spawned = [(k, p)] := by
  rw [cachedExecute_bypass env c k p h]
  unfold execute_ps_script
  rw [hr]
  cases hRun : env.run k p <;> rfl

/-- Unfolding a query-kind call once the data files and the
modification time have been observed: the remaining behavior is the
hit test against the cached entry. -/
theorem cachedExecute_cached_eq (env : ExecEnv) (c : Cache) (k : PSScript)
    (p : Option String) (hk : should_cache k = true)
    (hN : quick_access_data_files_new env.fs = .ok ())
    (cur : Nat) (hM : get_modified_time_for_script env.fs k = .ok cur) :
    cachedExecute env c k p =
      (match cacheFind c ⟨k, p⟩ with
       | some entry =>
         if cur ≤ entry.timestamp then ⟨.ok entry.result, c, []⟩
         else cachedExecuteMiss env c k p ⟨k, p⟩ cur
       | none => cachedExecuteMiss env c k p ⟨k, p⟩ cur) := by
  simp [cachedExecute, hk, hN, hM]

/-- Unfolding a query-kind call when QuickAccessDataFiles::new fails. -/
theorem cachedExecute_new_err (env : ExecEnv) (c : Cache) (k : PSScript)
    (p : Option String) (e : WincentError) (hk : should_cache k = true)
    (hN : quick_access_data_files_new env.fs = .error e) :
    cachedExecute env c k p = ⟨.error e, c, []⟩ := by
  simp [cachedExecute, hk, hN]

/-- Unfolding a query-kind call when the modification-time observation
fails. -/
theorem cachedExecute_time_err (env : ExecEnv) (c : Cache) (k : PSScript)
    (p : Option String) (e : WincentError) (hk : should_cache k = true)
    (hN : quick_access_data_files_new env.fs = .ok ())
    (hM : get_modified_time_for_script env.fs k = .error e) :
    cachedExecute env c k p = ⟨.error e, c, []⟩ := by
  simp [cachedExecute, hk, hN, hM]

/-- A cached-executor call spawns only the requested invocation. -/
theorem cachedExecute_spawned (env : ExecEnv) (c : Cache) (k : PSScript)
    (p : Option String) :
    ∀ s ∈ (cachedExecute env c k p).spawned, s = (k, p) := by
  intro s hs
  cases hk : should_cache k
  · rw [cachedExecute_bypass env c k p hk] at hs
    rcases hE : execute_ps_script env k p with ⟨r, sp⟩
    rw [hE] at hs
    have hsp : ∀ x ∈ sp, x = (k, p) := by
      have h := execute_ps_script_spawned env k p
      rw [hE] at h
      simpa using h
    cases r with
    | error e => exact hsp s (by simpa using hs)
    | ok out => exact hsp s (by simpa using hs)
  · cases hN : quick_access_data_files_new env.fs with
    | error e => rw [cachedExecute_new_err env c k p e hk hN] at hs; simp at hs
    | ok u =>
      cases u
      cases hM : get_modified_time_for_script env.fs k with
      | error e => rw [cachedExecute_time_err env c k p e hk hN hM] at hs; simp at hs
      | ok cur =>
        rw [cachedExecute_cached_eq env c k p hk hN cur hM] at hs
        cases hF : cacheFind c ⟨k, p⟩ with
        | none => rw [hF] at hs; exact cachedExecuteMiss_spawned env c k p ⟨k, p⟩ cur s hs
        | some entry =>
          rw [hF] at hs
          simp only [] at hs
          by_cases hT : cur ≤ entry.timestamp
          · rw [if_pos hT] at hs; simp at hs
          · rw [if_neg hT] at hs; exact cachedExecuteMiss_spawned env c k p ⟨k, p⟩ cur s hs

/-- A timeout-guarded call spawns only the requested invocation. -/
theorem execute_with_timeout_spawned (env : ExecEnv) (c : Cache) (k : PSScript)
    (p : Option String) (t : Nat) :
    ∀ s ∈ (execute_with_timeout env c k p t).spawned, s = (k, p) := by
  intro s hs
  unfold execute_with_timeout at hs
  cases ht : env.timedOut k p <;> rw [ht] at hs <;>
    simp only [Bool.false_eq_true, if_false, if_true] at hs
  · exact cachedExecute_spawned env c k p s hs
  · simp at hs

/-- The dispatch step of handle_operation never touches the cache when
the operation script is a non-cached kind (as every mutation script
is). -/
theorem handle_dispatch_cache (env : ExecEnv) (c : Cache) (operation : Operation)
    (path : String) (qa_type : QuickAccess) (force_update : Bool)
    (hs : should_cache operation.script = false) :
    (handle_operation_dispatch env c operation path qa_type force_update).2.1 = c := by
  cases qa_type with
  | All => rfl
  | FrequentFolders =>
    simp only [handle_operation_dispatch]
    exact execute_with_timeout_bypass_cache env c operation.script (some path) 10 hs
  | RecentFiles =>
    cases operation with
    | Add s0 =>
      simp only [handle_operation_dispatch, Operation.isAdd, if_true]
      cases hAdd : env.addRecentApi path with
      | some e => rfl
      | none =>
        cases force_update with
        | false => rfl
        | true =>
          simp only [if_true]
          cases hN : quick_access_data_files_new env.fs with
          | error e => rfl
          | ok u =>
            cases hRm : env.removeRecentData with
            | some e => rfl
            | none => rfl
    | Remove s0 =>
      simp only [handle_operation_dispatch, Operation.isAdd, Bool.false_eq_true, if_false]
      exact execute_with_timeout_bypass_cache env c (Operation.script (.Remove s0)) (some path) 10 hs

/-- handle_operation clears the cache exactly on full success. -/
theorem handle_operation_ok_cache (env : ExecEnv) (c : Cache) (operation : Operation)
    (path : String) (qa_type : QuickAccess) (path_type : PathType) (force_update : Bool) :
    (handle_operation env c operation path qa_type path_type force_update).1 = .ok () →
    (handle_operation env c operation path qa_type path_type force_update).2.1 = [] := by
  unfold handle_operation
  cases hV : env.validate path path_type with
  | some e => intro h; simp at h
  | none =>
    rcases hD : handle_operation_dispatch env c operation path qa_type force_update with ⟨dres, dcache, dsp⟩
    cases dres with
    | error e => intro h; simp at h
    | ok result =>
      simp only []
      cases hNE : result != ([] : List String) with
      | true => intro h; simp [hNE] at h
      | false => intro h; simp [hNE, clear_cache]

/-- handle_operation with a non-cached operation script leaves the
cache exactly as it was whenever it returns an error. -/
theorem handle_operation_err_cache (env : ExecEnv) (c : Cache) (operation : Operation)
    (path : String) (qa_type : QuickAccess) (path_type : PathType) (force_update : Bool)
    (hs : should_cache operation.script = false) (e : WincentError) :
    (handle_operation env c operation path qa_type path_type force_update).1 = .error e →
    (handle_operation env c operation path qa_type path_type force_update).2.1 = c := by
  unfold handle_operation
  cases hV : env.validate path path_type with
  | some e0 => intro _; rfl
  | none =>
    have hDC := handle_dispatch_cache env c operation path qa_type force_update hs
    rcases hD : handle_operation_dispatch env c operation path qa_type force_update with ⟨dres, dcache, dsp⟩
    rw [hD] at hDC
    cases dres with
    | error e0 => intro _; exact hDC
    | ok result =>
      simp only []
      cases hNE : result != ([] : List String) with
      | true => intro _; simpa [hNE] using hDC
      | false => intro h; simp [hNE] at h

/-- The tail of empty_items always leaves an empty cache: the clear
precedes the optional refresh, and the refresh is a non-cached kind. -/
theorem empty_items_tail_cache (env : ExecEnv) (c : Cache) (force_refresh : Bool) :
    (empty_items_tail env c force_refresh).2.1 = [] := by
  unfold empty_items_tail clear_cache
  cases force_refresh with
  | false => rfl
  | true =>
    simp only [if_true]
    have hcc : (cachedExecute env [] .RefreshExplorer none).cache = [] :=
      cachedExecute_bypass_cache env [] .RefreshExplorer none rfl
    rcases hr : cachedExecute env [] .RefreshExplorer none with ⟨res, cc, sp⟩
    rw [hr] at hcc
    cases res <;> simpa using hcc

/-- A successful single-category empty ends with an empty cache. -/
theorem empty_items_single_ok_cache (env : ExecEnv) (c : Cache) (recent : Bool)
    (force_refresh : Bool) (also_system_default : Bool) :
    (empty_items_single env c recent force_refresh also_system_default).1 = .ok () →
    (empty_items_single env c recent force_refresh also_system_default).2.1 = [] := by
  unfold empty_items_single
  rcases hP : (if recent then empty_recent_phase env c
               else empty_frequent_phase env c also_system_default) with ⟨pres, pc, psp⟩
  cases pres with
  | error e => intro h; simp at h
  | ok u => intro _; simpa using empty_items_tail_cache env pc force_refresh

/-- Without force_refresh, a failing single-category empty leaves the
cache untouched. -/
theorem empty_items_single_err_cache (env : ExecEnv) (c : Cache) (recent : Bool)
    (also_system_default : Bool) (e : WincentError) :
    (empty_items_single env c recent false also_system_default).1 = .error e →
    (empty_items_single env c recent false also_system_default).2.1 = c := by
  unfold empty_items_single
  cases recent with
  | true =>
    simp only [if_true]
    unfold empty_recent_phase
    cases hA : env.emptyRecentApi with
    | some e0 => intro _; rfl
    | none => intro h; simp [empty_items_tail] at h
  | false =>
    simp only [Bool.false_eq_true, if_false]
    unfold empty_frequent_phase
    cases hF : env.emptyFrequent also_system_default with
    | some e0 => intro _; rfl
    | none =>
      have hcc := execute_with_timeout_bypass_cache env c .EmptyPinnedFolders none 10 rfl
      rcases hr : execute_with_timeout env c .EmptyPinnedFolders none 10 with ⟨res, cc, sp⟩
      rw [hr] at hcc
      cases res with
      | error e0 => intro _; simpa using hcc
      | ok l => intro h; simp [empty_items_tail] at h

/-- Filtering a directory preserves the binding of a looked-up name
whenever the kept predicate holds on that binding. -/
theorem dirLookup_filter (d : Dir) (f : String × FileMeta → Bool) (n : String)
    (m : FileMeta) (hL : dirLookup d n = some m) (hf : f (n, m) = true) :
    dirLookup (d.filter f) n = some m := by
  induction d with
  | nil => simp [dirLookup] at hL
  | cons e rest ih =>
    rcases e with ⟨a, b⟩
    by_cases hB : (a == n) = true
    · have ha : a = n := by simpa using hB
      subst ha
      have hb : b = m := by simpa [dirLookup] using hL
      subst hb
      rw [List.filter_cons_of_pos hf]
      simp [dirLookup]
    · have hB' : (a == n) = false := by simpa using hB
      have hrest : dirLookup rest n = some m := by
        simpa [dirLookup, hB'] using hL
      have hres := ih hrest
      cases hfe : f (a, b) with
      | true =>
        rw [List.filter_cons_of_pos hfe]
        simpa [dirLookup, hB'] using hres
      | false =>
        rw [List.filter_cons_of_neg (by simp [hfe])]
        exact hres

/-- With successful resolution, the miss path spawns exactly the
requested invocation. -/
theorem cachedExecuteMiss_spawn_eq (env : ExecEnv) (c : Cache) (k : PSScript)
    (p : Option String) (key : CacheKey) (cur : Nat)
    (hr : env.resolveErr k p = none) :
    (cachedExecuteMiss env c k p key cur).spawned = [(k, p)] := by
  unfold cachedExecuteMiss execute_ps_script
  rw [hr]
  cases hRun : env.run k p with
  | error m => rfl
  | ok out =>
    simp only []
    cases parse_output_to_strings out <;> rfl

/-- On a successful execution and parse, the miss path returns the
fresh result and stores it under the key with the observed
modification time. -/
theorem cachedExecuteMiss_ok (env : ExecEnv) (c : Cache) (k : PSScript)
    (p : Option String) (key : CacheKey) (cur : Nat) (out : PSOutput)
    (sp : List Spawn) (r : List String)
    (hE : execute_ps_script env k p = (.ok out, sp))
    (hP : parse_output_to_strings out = .ok r) :
    cachedExecuteMiss env c k p key cur = ⟨.ok r, cacheInsert c key ⟨r, cur⟩, sp⟩ := by
  unfold cachedExecuteMiss
  rw [hE]
  simp only []
  rw [hP]

/-!
Claim theorems.
-/

/-- C3: for every query kind and parameter with an existing cache
entry, if the entry's freshness timestamp is at least the currently
observed modification time, execute returns the cached lines with no
subprocess call and an unchanged cache; otherwise the call takes the
miss path, which (with successful resolution) spawns the executor and,
on a successful execution and parse, stores (result, current_modified)
under the key and returns the result. -/
theorem claim_C3_cache_validation :
    ∀ (env : ExecEnv) (c : Cache) (k : PSScript) (p : Option String) (current : Nat),
    should_cache k = true →
    quick_access_data_files_new env.fs = .ok () →
    get_modified_time_for_script env.fs k = .ok current →
    ((∀ entry, cacheFind c ⟨k, p⟩ = some entry → current ≤ entry.timestamp →
        cachedExecute env c k p = ⟨.ok entry.result, c, []⟩) ∧
     (∀ entry, cacheFind c ⟨k, p⟩ = some entry → ¬ current ≤ entry.timestamp →
        cachedExecute env c k p = cachedExecuteMiss env c k p ⟨k, p⟩ current) ∧
     (cacheFind c ⟨k, p⟩ = none →
        cachedExecute env c k p = cachedExecuteMiss env c k p ⟨k, p⟩ current) ∧
     (env.resolveErr k p = none →
        (cachedExecuteMiss env c k p ⟨k, p⟩ current).spawned = [(k, p)]) ∧
     (∀ out sp r, execute_ps_script env k p = (.ok out, sp) →
        parse_output_to_strings out = .ok r →
        cachedExecuteMiss env c k p ⟨k, p⟩ current =
          ⟨.ok r, cacheInsert c ⟨k, p⟩ ⟨r, current⟩, sp⟩)) := by
  intro env c k p current hk hN hM
  refine ⟨?_, ?_, ?_, ?_, ?_⟩
  · intro entry hF hT
    rw [cachedExecute_cached_eq env c k p hk hN current hM, hF]
    simp only []
    rw [if_pos hT]
  · intro entry hF hT
    rw [cachedExecute_cached_eq env c k p hk hN current hM, hF]
    simp only []
    rw [if_neg hT]
  · intro hF
    rw [cachedExecute_cached_eq env c k p hk hN current hM, hF]
  · intro hr
    exact cachedExecuteMiss_spawn_eq env c k p ⟨k, p⟩ current hr
  · intro out sp r hE hP
    exact cachedExecuteMiss_ok env c k p ⟨k, p⟩ current out sp r hE hP

/-- C3 witness: with both data files present (recent file modified at
time 5) and a cache entry of freshness 9, the cached lines are served
back with no subprocess call and an unchanged cache. -/
theorem claim_C3_witness :
    cachedExecute demoEnv demoCache .QueryRecentFile none =
      ⟨.ok [("C:\\old.txt")], demoCache, []⟩ := by
  have h := (claim_C3_cache_validation demoEnv demoCache .QueryRecentFile none 5
    rfl rfl rfl).1 ⟨[("C:\\old.txt")], 99⟩ rfl (by decide)
  exact h

/-- C4: the freshness value a query is validated against is the
modification time of that query's backing data file (recent-files file
for the recent query, frequent-folders file for the frequent query,
the maximum of the two for the combined query), the current time when
the file is absent — in which case a cache entry older than the clock
is treated as a miss and the executor is spawned — and the current
time for every non-query kind. -/
theorem claim_C4_freshness_source :
    ∀ fs : FsState,
    (∀ t, fs.recentPresent = true → fs.recentMeta = .ok (some t) →
       get_modified_time_for_script fs .QueryRecentFile = .ok t) ∧
    (fs.recentPresent = false →
       get_modified_time_for_script fs .QueryRecentFile = .ok fs.now) ∧
    (∀ t, fs.frequentPresent = true → fs.frequentMeta = .ok (some t) →
       get_modified_time_for_script fs .QueryFrequentFolder = .ok t) ∧
    (fs.frequentPresent = false →
       get_modified_time_for_script fs .QueryFrequentFolder = .ok fs.now) ∧
    (∀ r f, get_recent_files_modified_time fs = .ok r →
       get_frequent_folders_modified_time fs = .ok f →
       get_modified_time_for_script fs .QueryQuickAccess = .ok (max r f)) ∧
    (∀ k, should_cache k = false → get_modified_time_for_script fs k = .ok fs.now) ∧
    (∀ (env : ExecEnv) (c : Cache) (p : Option String) (entry : CacheEntry),
       env.fs.recentPresent = false → env.fs.newErr = none →
       cacheFind c ⟨.QueryRecentFile, p⟩ = some entry →
       entry.timestamp < env.fs.now →
       env.resolveErr .QueryRecentFile p = none →
       (cachedExecute env c .QueryRecentFile p).spawned = [(.QueryRecentFile, p)]) := by
  intro fs
  refine ⟨?_, ?_, ?_, ?_, ?_, ?_, ?_⟩
  · intro t h1 h2
    simp [get_modified_time_for_script, get_recent_files_modified_time, h1, h2]
  · intro h
    simp [get_modified_time_for_script, get_recent_files_modified_time, h]
  · intro t h1 h2
    simp [get_modified_time_for_script, get_frequent_folders_modified_time, h1, h2]
  · intro h
    simp [get_modified_time_for_script, get_frequent_folders_modified_time, h]
  · intro r f h1 h2
    simp [get_modified_time_for_script, get_quick_access_modified_time, h1, h2]
  · intro k hk
    cases k <;> simp_all [should_cache, get_modified_time_for_script]
  · intro env c p entry h1 h2 h3 h4 h5
    have hmod : get_modified_time_for_script env.fs .QueryRecentFile = .ok env.fs.now := by
      simp [get_modified_time_for_script, get_recent_files_modified_time, h1]
    have hnew : quick_access_data_files_new env.fs = .ok () := by
      simp [quick_access_data_files_new, h2]
    rw [cachedExecute_cached_eq env c .QueryRecentFile p rfl hnew env.fs.now hmod, h3]
    simp only []
    rw [if_neg (by omega)]
    exact cachedExecuteMiss_spawn_eq env c .QueryRecentFile p ⟨.QueryRecentFile, p⟩ env.fs.now h5

/-- C4 witness: with both fixture files present (times 5 and 7), the
combined query validates against their maximum, and a non-query kind
validates against the clock. -/
theorem claim_C4_witness :
    get_modified_time_for_script demoFs .QueryQuickAccess = .ok 7 ∧
    get_modified_time_for_script demoFs .CheckQueryFeasible = .ok 10 := by
  obtain ⟨h1, h2, h3, h4, h5, h6, h7⟩ := claim_C4_freshness_source demoFs
  exact ⟨(h5 5 7 rfl rfl).trans rfl, h6 .CheckQueryFeasible rfl⟩

/-- C6: for each of the three parameterized kinds, generate with no
parameter fails with the missing-parameter error, and generate with a
parameter succeeds with script text containing the parameter verbatim. -/
theorem claim_C6_parameterized_generate :
    ∀ p : String,
    generate_script .RemoveRecentFile none = .error .MissingParemeter ∧
    generate_script .PinToFrequentFolder none = .error .MissingParemeter ∧
    generate_script .UnpinFromFrequentFolder none = .error .MissingParemeter ∧
    (∃ s, generate_script .RemoveRecentFile (some p) = .ok s ∧ containsVerbatim s p) ∧
    (∃ s, generate_script .PinToFrequentFolder (some p) = .ok s ∧ containsVerbatim s p) ∧
    (∃ s, generate_script .UnpinFromFrequentFolder (some p) = .ok s ∧ containsVerbatim s p) := by
  intro p
  refine ⟨rfl, rfl, rfl,
    ⟨removeRecentFileScript p, rfl, ?_⟩,
    ⟨pinToFrequentFolderScript p, rfl, ?_⟩,
    ⟨unpinFromFrequentFolderScript p, rfl, ?_⟩⟩
  · unfold removeRecentFileScript
    exact ⟨_, _, rfl⟩
  · unfold pinToFrequentFolderScript
    exact ⟨_, _, rfl⟩
  · unfold unpinFromFrequentFolderScript
    exact ⟨_, _, rfl⟩

/-- C7: parsing a non-zero-exit output is always the error carrying
the captured stderr (never an empty success); parsing a zero-exit
output succeeds with trimmed non-empty lines of stdout, a subsequence
of the trimmed newline split, hence in the original order. -/
theorem claim_C7_parse_output :
    ∀ o : PSOutput,
    (o.exitSuccess = false →
       parse_output_to_strings o = .error (.PowerShellExecution o.stderr)) ∧
    (o.exitSuccess = true →
       ∃ l, parse_output_to_strings o = .ok l ∧
         (∀ s ∈ l, s ≠ ("")) ∧
         l.Sublist ((strSplitChar ('\n') o.stdout).map rustTrim)) := by
  intro o
  constructor
  · intro h
    simp [parse_output_to_strings, h]
  · intro h
    refine ⟨((strSplitChar ('\n') o.stdout).map rustTrim).filter (fun s => s != ("")),
      by simp [parse_output_to_strings, h], ?_, ?_⟩
    · intro s hs heq
      rw [List.mem_filter] at hs
      rcases hs with ⟨-, hne⟩
      subst heq
      simp at hne
    · exact List.filter_sublist _

/-- C7 witness: a non-zero exit with stderr "err" parses to exactly
that error. -/
theorem claim_C7_witness :
    parse_output_to_strings ⟨false, (""), ("err")⟩ =
      .error (.PowerShellExecution ("err")) :=
  (claim_C7_parse_output ⟨false, (""), ("err")⟩).1 rfl

/-- C9: every access to the dynamic script directory sweeps it without
ever surfacing an error: a .ps1 file is removed exactly when its
file-name-encoded version differs from the running version or its age
since creation exceeds 24 hours, except that a failed deletion is
swallowed (the file simply stays); a failed directory read is also
swallowed. -/
theorem claim_C9_dynamic_sweep :
    ∀ (version : String) (now : Nat) (delOk : String → Bool) (readOk : Bool) (dyn : Dir),
    ∃ d, get_dynamic_scripts_dir version now delOk readOk dyn = .ok d ∧
      (readOk = true →
        ∀ e, e ∈ d ↔ e ∈ dyn ∧
          ¬(hasPs1Ext e.1 = true ∧ shouldRemoveScript version now e.1 e.2 = true ∧
            delOk e.1 = true)) ∧
      (readOk = false → d = dyn) ∧
      (∀ name meta, shouldRemoveScript version now name meta = true ↔
        ((∃ v, parse_script_version name = some v ∧ v ≠ version) ∨
          86400 < now - meta.created)) := by
  intro version now delOk readOk dyn
  have hchar : ∀ name meta, shouldRemoveScript version now name meta = true ↔
      ((∃ v, parse_script_version name = some v ∧ v ≠ version) ∨
        86400 < now - meta.created) := by
    intro name meta
    unfold shouldRemoveScript
    cases hpv : parse_script_version name with
    | none => simp [hpv]
    | some v =>
      by_cases hv : v = version
      · subst hv
        simp [hpv]
      · simp [hpv, hv]
  cases readOk with
  | false => exact ⟨dyn, rfl, by simp, fun _ => rfl, hchar⟩
  | true =>
    refine ⟨_, rfl, ?_, by simp, hchar⟩
    intro _ e
    have hkeep : ∀ (x : String × FileMeta),
        ((if hasPs1Ext x.1 && shouldRemoveScript version now x.1 x.2 then
            ! delOk x.1 else true) = true) ↔
          ¬(hasPs1Ext x.1 = true ∧ shouldRemoveScript version now x.1 x.2 = true ∧
            delOk x.1 = true) := by
      intro x
      by_cases h1 : hasPs1Ext x.1 = true <;>
        by_cases h2 : shouldRemoveScript version now x.1 x.2 = true <;>
          cases hd : delOk x.1 <;>
            simp [h1, h2, hd]
    rw [List.mem_filter, hkeep e]

/-- C9 witness: sweeping the fixture directory at time 100000 with
current version 0.5.2 removes the 0.4.0 file and keeps the fresh
current-version file; the sweep reports no error. -/
theorem claim_C9_witness :
    ∃ d, get_dynamic_scripts_dir ("0.5.2") 100000 (fun _ => true) true demoDynDir = .ok d ∧
      (("Test_0.4.0.ps1"), demoMeta) ∉ d ∧
      (("Test_0.5.2.ps1"), demoMeta) ∈ d := by
  obtain ⟨d, hd, hmem, -, -⟩ :=
    claim_C9_dynamic_sweep ("0.5.2") 100000 (fun _ => true) true demoDynDir
  refine ⟨d, hd, ?_, ?_⟩
  · intro hin
    have := (hmem rfl _).mp hin
    exact this.2 (by decide)
  · exact (hmem rfl _).mpr (by decide)

/-- C8: resolving the same (kind, parameter, version) twice returns
the same path both times, and the second call does not rewrite the
existing file: for static scripts the whole disk state is unchanged;
for dynamic scripts (within the 24-hour retention window of the sweep
that runs on every access) the stored file keeps content, creation
time and modification time, and the static directory is untouched. -/
theorem claim_C8_resolve_idempotent :
    (∀ (version : String) (now1 now2 : Nat) (s : DiskState) (k : PSScript)
       (p : String) (s1 : DiskState),
       get_script_path version now1 s k = .ok (p, s1) →
       get_script_path version now2 s1 k = .ok (p, s1)) ∧
    (∀ (version : String) (now1 now2 : Nat) (hash : String → String)
       (delOk1 delOk2 : String → Bool) (readOk1 readOk2 : Bool)
       (s : DiskState) (k : PSScript) (param p : String) (s1 : DiskState),
       get_dynamic_script_path version now1 hash delOk1 readOk1 s k param = .ok (p, s1) →
       parse_script_version p = some version →
       (∀ meta, dirLookup s1.dynamics p = some meta → now2 - meta.created ≤ 86400) →
       ∃ s2, get_dynamic_script_path version now2 hash delOk2 readOk2 s1 k param = .ok (p, s2) ∧
         dirLookup s2.dynamics p = dirLookup s1.dynamics p ∧
         s2.statics = s1.statics) := by
  constructor
  · intro version now1 now2 s k p s1 h
    unfold get_script_path at h ⊢
    dsimp only [] at h ⊢
    cases hL : dirLookup s.statics (psScriptName k ++ ("_") ++ version ++ (".ps1")) with
    | some m =>
      rw [hL] at h
      simp only [Except.ok.injEq, Prod.mk.injEq] at h
      obtain ⟨hp, hs⟩ := h
      subst hp
      subst hs
      rw [hL]
    | none =>
      rw [hL] at h
      cases hG : generate_script k none with
      | error e => rw [hG] at h; simp at h
      | ok content =>
        rw [hG] at h
        simp only [Except.ok.injEq, Prod.mk.injEq] at h
        obtain ⟨hp, hs⟩ := h
        subst hp
        rw [← hs]
        have hfind : dirLookup
            ((psScriptName k ++ ("_") ++ version ++ (".ps1"), (⟨true, content, now1, now1⟩ : FileMeta)) :: s.statics)
            (psScriptName k ++ ("_") ++ version ++ (".ps1")) = some ⟨true, content, now1, now1⟩ := by
          simp [dirLookup]
        rw [hfind]
  · intro version now1 now2 hash delOk1 delOk2 readOk1 readOk2 s k param p s1 h hpv hage
    unfold get_dynamic_script_path get_dynamic_scripts_dir at h ⊢
    dsimp only [] at h ⊢
    rcases hC1 : cleanup_expired_scripts version now1 delOk1 readOk1 s.dynamics with e | dyn
    · cases readOk1 <;> simp [cleanup_expired_scripts] at hC1
    rw [hC1] at h
    simp only [] at h
    have hLook : ∃ m', dirLookup s1.dynamics
        (psScriptName k ++ ("_") ++ version ++ ("_") ++ hash param ++ (".ps1")) = some m' ∧
        p = psScriptName k ++ ("_") ++ version ++ ("_") ++ hash param ++ (".ps1") := by
      cases hL : dirLookup dyn (psScriptName k ++ ("_") ++ version ++ ("_") ++ hash param ++ (".ps1")) with
      | some m =>
        rw [hL] at h
        simp only [Except.ok.injEq, Prod.mk.injEq] at h
        obtain ⟨hp, hs⟩ := h
        subst hp
        exact ⟨m, by rw [← hs]; exact hL, rfl⟩
      | none =>
        rw [hL] at h
        cases hG : generate_script k (some param) with
        | error e => rw [hG] at h; simp at h
        | ok content =>
          rw [hG] at h
          simp only [Except.ok.injEq, Prod.mk.injEq] at h
          obtain ⟨hp, hs⟩ := h
          subst hp
          refine ⟨⟨true, content, now1, now1⟩, ?_, rfl⟩
          rw [← hs]
          simp [dirLookup]
    obtain ⟨m', hM', hpname⟩ := hLook
    subst hpname
    have hageM := hage m' hM'
    have hSR : shouldRemoveScript version now2
        (psScriptName k ++ ("_") ++ version ++ ("_") ++ hash param ++ (".ps1")) m' = false := by
      unfold shouldRemoveScript
      rw [hpv]
      simp
      omega
    cases readOk2 with
    | false =>
      rw [show cleanup_expired_scripts version now2 delOk2 false s1.dynamics = .ok s1.dynamics from rfl]
      simp only []
      rw [hM']
      exact ⟨s1, rfl, hM', rfl⟩
    | true =>
      have hkeep : (if hasPs1Ext (psScriptName k ++ ("_") ++ version ++ ("_") ++ hash param ++ (".ps1")) &&
          shouldRemoveScript version now2
            (psScriptName k ++ ("_") ++ version ++ ("_") ++ hash param ++ (".ps1")) m' then
          ! delOk2 (psScriptName k ++ ("_") ++ version ++ ("_") ++ hash param ++ (".ps1"))
        else true) = true := by
        rw [hSR]
        simp
      have hfind := dirLookup_filter s1.dynamics
        (fun e => if hasPs1Ext e.1 && shouldRemoveScript version now2 e.1 e.2 then ! delOk2 e.1 else true)
        (psScriptName k ++ ("_") ++ version ++ ("_") ++ hash param ++ (".ps1")) m' hM' hkeep
      rw [show cleanup_expired_scripts version now2 delOk2 true s1.dynamics =
        .ok (s1.dynamics.filter (fun e =>
          if hasPs1Ext e.1 && shouldRemoveScript version now2 e.1 e.2 then ! delOk2 e.1 else true)) from rfl]
      simp only []
      rw [hfind]
      refine ⟨_, rfl, ?_, rfl⟩
      rw [hfind, hM']

/-- C8 witness: resolving RefreshExplorer a second time at a later
clock returns the same path and the unchanged disk state, and
resolving the pin script for C:\T a second time within the retention
window returns the same path with the stored file binding unchanged. -/
theorem claim_C8_witness :
    get_script_path ("0.5.2") 1 demoStaticDisk .RefreshExplorer =
      .ok (("RefreshExplorer_0.5.2.ps1"), demoStaticDisk) ∧
    (∃ s2, get_dynamic_script_path ("0.5.2") 100 (fun _ => ("abcd1234")) (fun _ => true) true
        demoDynDisk1 .PinToFrequentFolder ("C:\\T") =
          .ok (("PinToFrequentFolder_0.5.2_abcd1234.ps1"), s2) ∧
      dirLookup s2.dynamics ("PinToFrequentFolder_0.5.2_abcd1234.ps1") =
        dirLookup demoDynDisk1.dynamics ("PinToFrequentFolder_0.5.2_abcd1234.ps1") ∧
      s2.statics = demoDynDisk1.statics) := by
  constructor
  · exact claim_C8_resolve_idempotent.1 ("0.5.2") 0 1 ⟨[], []⟩ .RefreshExplorer
      ("RefreshExplorer_0.5.2.ps1") demoStaticDisk rfl
  · refine claim_C8_resolve_idempotent.2 ("0.5.2") 0 100 (fun _ => ("abcd1234"))
      (fun _ => true) (fun _ => true) true true ⟨[], []⟩ .PinToFrequentFolder
      ("C:\\T") ("PinToFrequentFolder_0.5.2_abcd1234.ps1") demoDynDisk1 rfl (by decide) ?_
    intro meta hm
    simp [dirLookup, demoDynDisk1] at hm
    subst hm
    decide

/-- Every subprocess spawned on behalf of a membership query is the
mapped query kind (a cached kind). -/
theorem check_item_spawned (env : ExecEnv) (st : ManagerState) (path : String)
    (qa : QuickAccess) :
    ∀ s ∈ (check_item env st path qa).2.2, should_cache s.1 = true := by
  intro s hs
  cases qa with
  | All =>
    unfold check_item get_items map_to_script_type at hs
    dsimp only [] at hs
    rcases hr : execute_with_timeout env st.cache .QueryQuickAccess none 10 with ⟨res, cc, ssp⟩
    rw [hr] at hs
    have hsp := execute_with_timeout_spawned env st.cache .QueryQuickAccess none 10
    rw [hr] at hsp
    cases res <;> simp only [] at hs <;>
    · have := hsp s (by simpa using hs)
      rw [this]
      rfl
  | RecentFiles =>
    unfold check_item get_items map_to_script_type at hs
    dsimp only [] at hs
    rcases hr : execute_with_timeout env st.cache .QueryRecentFile none 10 with ⟨res, cc, ssp⟩
    rw [hr] at hs
    have hsp := execute_with_timeout_spawned env st.cache .QueryRecentFile none 10
    rw [hr] at hsp
    cases res <;> simp only [] at hs <;>
    · have := hsp s (by simpa using hs)
      rw [this]
      rfl
  | FrequentFolders =>
    unfold check_item get_items map_to_script_type at hs
    dsimp only [] at hs
    rcases hr : execute_with_timeout env st.cache .QueryFrequentFolder none 10 with ⟨res, cc, ssp⟩
    rw [hr] at hs
    have hsp := execute_with_timeout_spawned env st.cache .QueryFrequentFolder none 10
    rw [hr] at hsp
    cases res <;> simp only [] at hs <;>
    · have := hsp s (by simpa using hs)
      rw [this]
      rfl

/-- C2: exactly the three query kinds are cache-eligible; every other
kind bypasses the cache (unchanged cache, cache-independent result,
one fresh subprocess when resolution succeeds); the cache only ever
accumulates entries keyed by cache-eligible kinds; and after any
successful add_item, remove_item or empty_items the cache holds zero
entries. -/
theorem claim_C2_cache_scope :
    (∀ k : PSScript, should_cache k = true ↔
       (k = .QueryQuickAccess ∨ k = .QueryRecentFile ∨ k = .QueryFrequentFolder)) ∧
    (∀ (env : ExecEnv) (c : Cache) (k : PSScript) (p : Option String),
       should_cache k = false →
         (cachedExecute env c k p).cache = c ∧
         (cachedExecute env c k p).res = (cachedExecute env [] k p).res ∧
         (env.resolveErr k p = none → (cachedExecute env c k p).spawned = [(k, p)])) ∧
    (∀ (env : ExecEnv) (c : Cache) (k : PSScript) (p : Option String),
       (∀ e ∈ c, should_cache e.1.script_type = true) →
       ∀ e ∈ (cachedExecute env c k p).cache, should_cache e.1.script_type = true) ∧
    (∀ (env : ExecEnv) (st : ManagerState) (path : String) (qa : QuickAccess) (fu : Bool),
       (add_item env st path qa fu).1 = .ok () →
       (add_item env st path qa fu).2.1.cache = []) ∧
    (∀ (env : ExecEnv) (st : ManagerState) (path : String) (qa : QuickAccess),
       (remove_item env st path qa).1 = .ok () →
       (remove_item env st path qa).2.1.cache = []) ∧
    (∀ (env : ExecEnv) (st : ManagerState) (qa : QuickAccess) (fr asd : Bool),
       (empty_items env st qa fr asd).1 = .ok () →
       (empty_items env st qa fr asd).2.1.cache = []) := by
  refine ⟨?_, ?_, ?_, ?_, ?_, ?_⟩
  · intro k
    cases k <;> simp [should_cache]
  · intro env c k p h
    exact ⟨cachedExecute_bypass_cache env c k p h,
      cachedExecute_bypass_res env c k p h,
      fun hr => cachedExecute_bypass_spawn env c k p h hr⟩
  · intro env c k p hc e he
    cases hk : should_cache k
    · rw [cachedExecute_bypass_cache env c k p hk] at he
      exact hc e he
    · have hMiss : ∀ cur, ∀ x ∈ (cachedExecuteMiss env c k p ⟨k, p⟩ cur).cache,
          should_cache x.1.script_type = true := by
        intro cur x hx
        unfold cachedExecuteMiss at hx
        rcases hE : execute_ps_script env k p with ⟨r, sp⟩
        rw [hE] at hx
        cases r with
        | error e1 => exact hc x (by simpa using hx)
        | ok out =>
          simp only [] at hx
          cases hP : parse_output_to_strings out with
          | error e1 => rw [hP] at hx; exact hc x (by simpa using hx)
          | ok res =>
            rw [hP] at hx
            simp only [] at hx
            unfold cacheInsert at hx
            rcases List.mem_cons.mp hx with hx1 | hx2
            · rw [hx1]
              exact hk
            · exact hc x (List.mem_of_mem_filter hx2)
      cases hN : quick_access_data_files_new env.fs with
      | error e1 =>
        rw [cachedExecute_new_err env c k p e1 hk hN] at he
        exact hc e he
      | ok u =>
        cases u
        cases hM : get_modified_time_for_script env.fs k with
        | error e1 =>
          rw [cachedExecute_time_err env c k p e1 hk hN hM] at he
          exact hc e he
        | ok cur =>
          rw [cachedExecute_cached_eq env c k p hk hN cur hM] at he
          cases hF : cacheFind c ⟨k, p⟩ with
          | none =>
            rw [hF] at he
            exact hMiss cur e he
          | some entry =>
            rw [hF] at he
            simp only [] at he
            by_cases hT : cur ≤ entry.timestamp
            · rw [if_pos hT] at he
              exact hc e he
            · rw [if_neg hT] at he
              exact hMiss cur e he
  · intro env st path qa fu
    unfold add_item
    rcases hC : check_item env st path qa with ⟨res, st1, sp⟩
    cases res with
    | error e => intro h; simp at h
    | ok b =>
      cases b
      · cases qa with
        | All => intro h; simp at h
        | RecentFiles =>
          intro h
          simp only [] at h ⊢
          exact handle_operation_ok_cache env st1.cache (.Add .AddRecentFile) path .RecentFiles .File fu h
        | FrequentFolders =>
          intro h
          simp only [] at h ⊢
          exact handle_operation_ok_cache env st1.cache (.Add .PinToFrequentFolder) path .FrequentFolders .Directory fu h
      · intro h; simp at h
  · intro env st path qa
    unfold remove_item
    rcases hC : check_item env st path qa with ⟨res, st1, sp⟩
    cases res with
    | error e => intro h; simp at h
    | ok b =>
      cases b
      · intro h; simp at h
      · cases qa with
        | All => intro h; simp at h
        | RecentFiles =>
          intro h
          simp only [] at h ⊢
          exact handle_operation_ok_cache env st1.cache (.Remove .RemoveRecentFile) path .RecentFiles .File false h
        | FrequentFolders =>
          intro h
          simp only [] at h ⊢
          exact handle_operation_ok_cache env st1.cache (.Remove .UnpinFromFrequentFolder) path .FrequentFolders .Directory false h
  · intro env st qa fr asd
    cases qa with
    | RecentFiles =>
      intro h
      simp only [empty_items] at h ⊢
      exact empty_items_single_ok_cache env st.cache true fr asd h
    | FrequentFolders =>
      intro h
      simp only [empty_items] at h ⊢
      exact empty_items_single_ok_cache env st.cache false fr asd h
    | All =>
      unfold empty_items
      simp only []
      rcases hS1 : empty_items_single env st.cache true fr asd with ⟨r1, c1, sp1⟩
      cases r1 with
      | error e => simp only []; intro h; simp at h
      | ok u1 =>
        simp only []
        rcases hS2 : empty_items_single env c1 false fr asd with ⟨r2, c2, sp2⟩
        cases r2 with
        | error e => simp only []; intro h; simp at h
        | ok u2 =>
          simp only []
          intro _
          exact empty_items_tail_cache env c2 fr

/-- C2 witness: with the fixture environment and a non-empty cache, a
successful add_item leaves zero cache entries. -/
theorem claim_C2_witness :
    (add_item demoEnv ⟨demoCache, none⟩ ("C:\\B.txt") .RecentFiles false).2.1.cache = [] :=
  claim_C2_cache_scope.2.2.2.1 demoEnv ⟨demoCache, none⟩ ("C:\\B.txt") .RecentFiles false rfl

/-- C5: add_item on a path the membership check already reports
present fails with AlreadyExists, and remove_item on a path reported
absent fails with NotInRecent (the spec's NotFound); in both cases the
only subprocesses spawned are the membership query's own (cached query
kinds), never a mutating script. -/
theorem claim_C5_guards :
    ∀ (env : ExecEnv) (st : ManagerState) (path : String) (qa : QuickAccess) (fu : Bool),
    ((check_item env st path qa).1 = .ok true →
       (add_item env st path qa fu).1 = .error (.AlreadyExists path) ∧
       (add_item env st path qa fu).2.2 = (check_item env st path qa).2.2 ∧
       (∀ s ∈ (add_item env st path qa fu).2.2, should_cache s.1 = true)) ∧
    ((check_item env st path qa).1 = .ok false →
       (remove_item env st path qa).1 = .error (.NotInRecent path) ∧
       (remove_item env st path qa).2.2 = (check_item env st path qa).2.2 ∧
       (∀ s ∈ (remove_item env st path qa).2.2, should_cache s.1 = true)) := by
  intro env st path qa fu
  have hq := check_item_spawned env st path qa
  rcases hC : check_item env st path qa with ⟨res, st1, sp⟩
  rw [hC] at hq
  dsimp only [] at hq
  constructor
  · intro h
    dsimp only [] at h
    subst h
    refine ⟨?_, ?_, ?_⟩
    · simp [add_item, hC]
    · simp [add_item, hC]
    · intro s hs
      simp only [add_item, hC] at hs
      exact hq s hs
  · intro h
    dsimp only [] at h
    subst h
    refine ⟨?_, ?_, ?_⟩
    · simp [remove_item, hC]
    · simp [remove_item, hC]
    · intro s hs
      simp only [remove_item, hC] at hs
      exact hq s hs

/-- C5 witness: the fixture query reports C:\A.txt present, so adding
it again fails with AlreadyExists, and the absent path C:\B.txt makes
remove_item fail with NotInRecent. -/
theorem claim_C5_witness :
    (add_item demoEnv ⟨[], none⟩ ("C:\\A.txt") .RecentFiles false).1 =
      .error (.AlreadyExists ("C:\\A.txt")) ∧
    (remove_item demoEnv ⟨[], none⟩ ("C:\\B.txt") .RecentFiles).1 =
      .error (.NotInRecent ("C:\\B.txt")) :=
  ⟨((claim_C5_guards demoEnv ⟨[], none⟩ ("C:\\A.txt") .RecentFiles false).1 rfl).1,
   ((claim_C5_guards demoEnv ⟨[], none⟩ ("C:\\B.txt") .RecentFiles false).2 rfl).1⟩

/-- C1 counterexample: in the fixture environment both feasibility
probes fail, so after check_feasible the manager knows feasibility is
(false, false); yet get_items on that very state still spawns the
query subprocess and returns its lines — it does not fail fast with
UnsupportedOperation. -/
theorem claim_C1_counterexample :
    (check_feasible demoEnv ⟨[], none⟩).2.1.feasibility = some (false, false) ∧
    (get_items demoEnv (check_feasible demoEnv ⟨[], none⟩).2.1 .RecentFiles).1 =
      .ok [("C:\\A.txt")] ∧
    (get_items demoEnv (check_feasible demoEnv ⟨[], none⟩).2.1 .RecentFiles).2.2 =
      [(.QueryRecentFile, none)] :=
  ⟨rfl, rfl, rfl⟩

/-- C1 amended: the Manager entry points never consult the memoized
feasibility flags — the result, the cache and the spawned
subprocesses of get_items, check_item, add_item, remove_item and
empty_items are identical whatever the feasibility cell holds;
feasibility is advisory, only reported by check_feasible, and no
fail-fast UnsupportedOperation gate exists. -/
theorem claim_C1_amended :
    ∀ (env : ExecEnv) (c : Cache) (f1 f2 : Option (Bool × Bool)) (qa : QuickAccess)
      (path : String) (fu fr asd : Bool),
    (get_items env ⟨c, f1⟩ qa).1 = (get_items env ⟨c, f2⟩ qa).1 ∧
    (get_items env ⟨c, f1⟩ qa).2.1.cache = (get_items env ⟨c, f2⟩ qa).2.1.cache ∧
    (get_items env ⟨c, f1⟩ qa).2.2 = (get_items env ⟨c, f2⟩ qa).2.2 ∧
    (check_item env ⟨c, f1⟩ path qa).1 = (check_item env ⟨c, f2⟩ path qa).1 ∧
    (add_item env ⟨c, f1⟩ path qa fu).1 = (add_item env ⟨c, f2⟩ path qa fu).1 ∧
    (remove_item env ⟨c, f1⟩ path qa).1 = (remove_item env ⟨c, f2⟩ path qa).1 ∧
    (empty_items env ⟨c, f1⟩ qa fr asd).1 = (empty_items env ⟨c, f2⟩ qa fr asd).1 := by
  intro env c f1 f2 qa path fu fr asd
  refine ⟨?_, ?_, ?_, ?_, ?_, ?_, ?_⟩
  · cases qa <;> rfl
  · cases qa <;> rfl
  · cases qa <;> rfl
  · cases qa <;>
    · simp only [check_item, get_items, map_to_script_type]
      rcases hE : execute_with_timeout env c _ none 10 with ⟨res, cc, ssp⟩
      cases res <;> rfl
  · cases qa <;>
    · simp only [add_item, check_item, get_items, map_to_script_type]
      rcases hE : execute_with_timeout env c _ none 10 with ⟨res, cc, ssp⟩
      cases res with
      | error e => rfl
      | ok items =>
        simp only []
        cases hb : items.any (fun item => item == path) <;> rfl
  · cases qa <;>
    · simp only [remove_item, check_item, get_items, map_to_script_type]
      rcases hE : execute_with_timeout env c _ none 10 with ⟨res, cc, ssp⟩
      cases res with
      | error e => rfl
      | ok items =>
        simp only []
        cases hb : items.any (fun item => item == path) <;> rfl
  · cases qa with
    | RecentFiles => rfl
    | FrequentFolders => rfl
    | All =>
      simp only [empty_items]
      rcases hS1 : empty_items_single env c true fr asd with ⟨r1, c1, sp1⟩
      cases r1 with
      | error e => rfl
      | ok u1 =>
        simp only []
        rcases hS2 : empty_items_single env c1 false fr asd with ⟨r2, c2, sp2⟩
        cases r2 <;> rfl

/-- C10 counterexample: empty_items on RecentFiles with force_refresh
set, against a non-empty cache and a failing Explorer refresh, returns
an error even though the cache has already been cleared — the cache
does not retain its pre-call entries on this error path. -/
theorem claim_C10_counterexample :
    (empty_items demoEnv ⟨demoCache, none⟩ .RecentFiles true false).1 =
      .error (.PowerShellExecution ("boom")) ∧
    demoCache ≠ [] ∧
    (empty_items demoEnv ⟨demoCache, none⟩ .RecentFiles true false).2.1.cache = [] :=
  ⟨rfl, by decide, rfl⟩

/-- C10 amended: the mutation core (handle_operation) leaves the cache
untouched on every error and clears it exactly on full success;
add_item and remove_item on error leave the cache exactly as their
initial membership query left it (they never clear it); and
empty_items without force_refresh on a non-All category preserves the
cache on error. (With force_refresh, or across the All decomposition,
the clear precedes the refresh or the later phase, so an error there
can follow a clear — see the counterexample.) -/
theorem claim_C10_amended :
    (∀ (env : ExecEnv) (c : Cache) (operation : Operation) (path : String)
       (qa : QuickAccess) (pt : PathType) (fu : Bool),
       should_cache operation.script = false →
       ((handle_operation env c operation path qa pt fu).1 = .ok () →
          (handle_operation env c operation path qa pt fu).2.1 = []) ∧
       (∀ e, (handle_operation env c operation path qa pt fu).1 = .error e →
          (handle_operation env c operation path qa pt fu).2.1 = c)) ∧
    (∀ (env : ExecEnv) (st : ManagerState) (path : String) (qa : QuickAccess)
       (fu : Bool) (e : WincentError),
       (add_item env st path qa fu).1 = .error e →
       (add_item env st path qa fu).2.1.cache = (check_item env st path qa).2.1.cache) ∧
    (∀ (env : ExecEnv) (st : ManagerState) (path : String) (qa : QuickAccess)
       (e : WincentError),
       (remove_item env st path qa).1 = .error e →
       (remove_item env st path qa).2.1.cache = (check_item env st path qa).2.1.cache) ∧
    (∀ (env : ExecEnv) (st : ManagerState) (qa : QuickAccess) (asd : Bool)
       (e : WincentError),
       qa ≠ .All →
       (empty_items env st qa false asd).1 = .error e →
       (empty_items env st qa false asd).2.1.cache = st.cache) := by
  refine ⟨?_, ?_, ?_, ?_⟩
  · intro env c operation path qa pt fu hs
    exact ⟨handle_operation_ok_cache env c operation path qa pt fu,
      fun e h => handle_operation_err_cache env c operation path qa pt fu hs e h⟩
  · intro env st path qa fu e
    rcases hC : check_item env st path qa with ⟨res, st1, sp⟩
    cases res with
    | error e0 => intro _; simp [add_item, hC]
    | ok b =>
      cases b
      · cases qa with
        | All => intro _; simp [add_item, hC]
        | RecentFiles =>
          simp only [add_item, hC]
          intro h
          exact handle_operation_err_cache env st1.cache (.Add .AddRecentFile) path
            .RecentFiles .File fu rfl e h
        | FrequentFolders =>
          simp only [add_item, hC]
          intro h
          exact handle_operation_err_cache env st1.cache (.Add .PinToFrequentFolder) path
            .FrequentFolders .Directory fu rfl e h
      · intro _; simp [add_item, hC]
  · intro env st path qa e
    rcases hC : check_item env st path qa with ⟨res, st1, sp⟩
    cases res with
    | error e0 => intro _; simp [remove_item, hC]
    | ok b =>
      cases b
      · intro _; simp [remove_item, hC]
      · cases qa with
        | All => intro _; simp [remove_item, hC]
        | RecentFiles =>
          simp only [remove_item, hC]
          intro h
          exact handle_operation_err_cache env st1.cache (.Remove .RemoveRecentFile) path
            .RecentFiles .File false rfl e h
        | FrequentFolders =>
          simp only [remove_item, hC]
          intro h
          exact handle_operation_err_cache env st1.cache (.Remove .UnpinFromFrequentFolder) path
            .FrequentFolders .Directory false rfl e h
  · intro env st qa asd e hne
    cases qa with
    | All => exact absurd rfl hne
    | RecentFiles =>
      simp only [empty_items]
      intro h
      exact empty_items_single_err_cache env st.cache true asd e h
    | FrequentFolders =>
      simp only [empty_items]
      intro h
      exact empty_items_single_err_cache env st.cache false asd e h

/-- C10 witness: a successful removal clears the fixture cache, and a
failing native empty (without refresh) leaves it untouched while the
call errors. -/
theorem claim_C10_witness :
    (handle_operation demoEnv demoCache (.Remove .RemoveRecentFile) ("C:\\A.txt")
      .RecentFiles .File false).2.1 = [] ∧
    (empty_items { demoEnv with emptyRecentApi := some (.WindowsApi 1) }
      ⟨demoCache, none⟩ .RecentFiles false false).2.1.cache = demoCache := by
  constructor
  · exact (claim_C10_amended.1 demoEnv demoCache (.Remove .RemoveRecentFile) ("C:\\A.txt")
      .RecentFiles .File false rfl).1 rfl
  · exact claim_C10_amended.2.2.2 { demoEnv with emptyRecentApi := some (.WindowsApi 1) }
      ⟨demoCache, none⟩ .RecentFiles false (.WindowsApi 1) (by decide) rfl

end Wincent
